import Mathlib

/-!
A shallow embedding of `src/miro_teleop/src/command_logic.cpp` (the MiRo
teleoperation command-logic node) together with theorems about its command
state machine, ingestion scaling, validity gates, error policy and turn
emission.

Modelling conventions:
* C++ `double` values are modelled by `FP`: NaN, the two infinities, or an
  exact rational.  Rounding is not modelled; IEEE comparison semantics
  (every comparison involving NaN is false) are modelled exactly, since the
  validity gates of the node depend on them.
* ROS service calls are modelled by `Option` responses: `none` is a failed
  call (`cli_x.call(...)` returning false), `some r` a successful call
  returning `r`.
* The publish/subscribe side effects of one main-loop iteration are
  collected in a list of `Event`s.  Only the RRT* service request is
  recorded as an event (it is the only request carrying the obstacle
  region); the spatial-reasoner matrices cache is forwarded to the
  pertinence request unchanged and is not otherwise observable.
* `ros::spinOnce()` runs all queued subscriber callbacks at the end of each
  loop iteration; a `TickInput` carries the (last-write-wins) deliveries
  drained there, plus the responses the remote services would give during
  that iteration.
-/

/-- Idealised IEEE-754 double: NaN, one of the two infinities, or an exact
finite value (modelled as a rational; rounding is not modelled). -/
inductive FP where
  | nan : FP
  | inf : FP
  | ninf : FP
  | fin : ℚ → FP
deriving DecidableEq

/-- IEEE `<` on doubles: any comparison involving NaN is false. -/
def FP.lt : FP → FP → Bool
  | .nan, _ => false
  | _, .nan => false
  | .ninf, .ninf => false
  | .ninf, _ => true
  | _, .ninf => false
  | .inf, _ => false
  | .fin _, .inf => true
  | .fin p, .fin q => decide (p < q)

/-- IEEE `<=` on doubles: any comparison involving NaN is false. -/
def FP.le : FP → FP → Bool
  | .nan, _ => false
  | _, .nan => false
  | .ninf, _ => true
  | _, .ninf => false
  | _, .inf => true
  | .inf, _ => false
  | .fin p, .fin q => decide (p ≤ q)

/-- `std::isfinite`: true exactly on finite values. -/
def FP.isfinite : FP → Bool
  | .fin _ => true
  | _ => false

/-- Multiplication by the ingestion scale factor 100 (`100*x` on a double;
exact on our idealised doubles, and IEEE-correct on NaN and infinities). -/
def FP.mul100 : FP → FP
  | .nan => .nan
  | .inf => .inf
  | .ninf => .ninf
  | .fin q => .fin (100 * q)

/-- `geometry_msgs::Pose2D`: planar pose (x, y, theta). -/
structure Pose2D where
  x : FP
  y : FP
  theta : FP
deriving DecidableEq

/-- `geometry_msgs::Vector3` (also used for trajectory points). -/
structure Vec3 where
  x : FP
  y : FP
  z : FP
deriving DecidableEq

/-- `geometry_msgs::Quaternion` (gesture orientation, passed through). -/
structure QuatMsg where
  qx : FP
  qy : FP
  qz : FP
  qw : FP
deriving DecidableEq

/-- `geometry_msgs::Pose`: gesture position plus orientation. -/
structure GPose where
  position : Vec3
  orientation : QuatMsg
deriving DecidableEq

/-- Grid resolution (`#define RES 40`). -/
def RES : ℕ := 40

/-- Number of relation layers (`#define NZ 5`). -/
def NZ : ℕ := 5

/-- Workspace horizontal size (`#define HSIZE 400`), in centimeters.  An
integer, as in the C source; the bound `-HSIZE/2` is integer arithmetic
(`(-HSIZE)/2 = -200`) implicitly converted to double at the comparison. -/
def HSIZE : ℤ := 400

/-- Workspace vertical size (`#define VSIZE 400`), in centimeters. -/
def VSIZE : ℤ := 400

instance : NeZero (RES * RES) := ⟨by decide⟩

instance : NeZero (NZ * RES * RES) := ⟨by decide⟩

/-- A fused landscape as returned by the pertinence-mapping service:
RES*RES scalars, row-major. -/
abbrev Landscape := Fin (RES * RES) → FP

/-- The spatial-reasoner response: NZ*RES*RES scalars (NZ stacked grids). -/
abbrev SpatResp := Fin (NZ * RES * RES) → FP

/-- Subscriber callback `getCmd` (command_logic.cpp:38-42): the stored
command tag is overwritten with the delivered one. -/
def getCmd (msg : ℕ) : ℕ := msg

/-- Subscriber callback `getRobotPose` (command_logic.cpp:48-53): position
coordinates are multiplied by 100 at ingestion, theta is stored unchanged. -/
def getRobotPose (groundpose : Pose2D) : Pose2D :=
  ⟨groundpose.x.mul100, groundpose.y.mul100, groundpose.theta⟩

/-- Subscriber callback `getGesture` (command_logic.cpp:59-65): the three
position coordinates are multiplied by 100, the orientation passes through. -/
def getGesture (pose : GPose) : GPose :=
  ⟨⟨pose.position.x.mul100, pose.position.y.mul100, pose.position.z.mul100⟩,
    pose.orientation⟩

/-- Subscriber callback `getObstaclePose` (command_logic.cpp:71-76): same
scaling as the robot pose. -/
def getObstaclePose (groundpose : Pose2D) : Pose2D :=
  ⟨groundpose.x.mul100, groundpose.y.mul100, groundpose.theta⟩

/-- The workspace-bounds test used verbatim for both the target
(command_logic.cpp:282-283) and the goal (command_logic.cpp:349-350):
`p.x < -HSIZE/2 || p.x > HSIZE/2 || p.y < -VSIZE/2 || p.y > VSIZE/2`,
with IEEE comparison semantics (`a > b` is `b < a`). -/
def poseOutOfBounds (p : Pose2D) : Bool :=
  p.x.lt (.fin ((-HSIZE / 2 : ℤ) : ℚ)) ||
  (FP.fin ((HSIZE / 2 : ℤ) : ℚ)).lt p.x ||
  p.y.lt (.fin ((-VSIZE / 2 : ℤ) : ℚ)) ||
  (FP.fin ((VSIZE / 2 : ℤ) : ℚ)).lt p.y

/-- State update of the gesture-processing stage (command_logic.cpp:268-288),
given a successful call returning `target`.  The activation entered with
`state = 0`; state becomes 1 if both coordinates are finite, and is then
forced back to 0 if any bound comparison fires. -/
def gestureStage (target : Pose2D) : ℕ :=
  let s := if target.x.isfinite && target.y.isfinite then 1 else 0
  if poseOutOfBounds target then 0 else s

/-- State update of the pertinence-mapping stage (command_logic.cpp:296-335),
given a successful call returning `land`.  The block is gated on
`state == 1`; only `landscape[0]` is tested for finiteness. -/
def pertinenceStage (s : ℕ) (land : Landscape) : ℕ :=
  if s = 1 then (if (land 0).isfinite then 2 else 0) else s

/-- State update of the Monte Carlo stage (command_logic.cpp:338-368), given
a successful call returning `goal`.  The block is gated on `state == 2`;
the goal is rejected exactly when a bound comparison fires (there is no
finiteness check on the goal). -/
def monteCarloStage (s : ℕ) (goal : Pose2D) : ℕ :=
  if s = 2 then (if poseOutOfBounds goal then 0 else 3) else s

/-- State update of the RRT* stage on a successful call
(command_logic.cpp:371-417): gated on `state == 3`, sets `state = 4`. -/
def rrtsStage (s : ℕ) : ℕ :=
  if s = 3 then 4 else s

/-- `rrtstar_msgs::Region`: an axis-aligned box given by center and size. -/
structure Region where
  center_x : FP
  center_y : FP
  center_z : FP
  size_x : FP
  size_y : FP
  size_z : FP
deriving DecidableEq

/-- The fixed workspace region (command_logic.cpp:188-193). -/
def workspaceRegion : Region :=
  ⟨.fin 0, .fin 0, .fin 0, .fin (HSIZE : ℚ), .fin (VSIZE : ℚ), .fin 0⟩

/-- Predefined obstacle dimensions (command_logic.cpp:133-135). -/
def obsdim : ℚ × ℚ := (80, 80)

/-- The obstacle region built once before the main loop
(command_logic.cpp:198-203) from the obstacle pose known at that moment. -/
def buildObstacleRegion (p : Pose2D) : Region :=
  ⟨p.x, p.y, .fin 0, .fin obsdim.1, .fin obsdim.2, .fin 0⟩

/-- The goal region built per activation (command_logic.cpp:381-386):
a 20 x 20 box centered at the goal. -/
def goalRegion (goal : Pose2D) : Region :=
  ⟨goal.x, goal.y, .fin 0, .fin 20, .fin 20, .fin 0⟩

/-- The initial position of the path request (command_logic.cpp:376-378):
the current robot pose, z = 0. -/
def initVector (robot : Pose2D) : Vec3 :=
  ⟨robot.x, robot.y, .fin 0⟩

/-- Observable effects of one loop iteration: the RRT* request (workspace,
obstacle region, goal region, initial position), and the three publishes
(path, enable flag, turn command).  The turn event records the goal and
robot poses from which `dtheta` is computed (command_logic.cpp:424-428). -/
inductive Event where
  | reqRRTS : Region → Region → Region → Vec3 → Event
  | pubPath : List Vec3 → Event
  | pubFlag : Bool → Event
  | pubTurn : Pose2D → Pose2D → Event
deriving DecidableEq

/-- True on publish events, false on the recorded service request. -/
def Event.isPub : Event → Bool
  | .reqRRTS _ _ _ _ => false
  | _ => true

/-- The publishes among a list of events. -/
def eventPubs (evs : List Event) : List Event :=
  evs.filter Event.isPub

/-- Whether a turn command occurs among the events. -/
def hasTurn (evs : List Event) : Bool :=
  evs.any fun e => match e with
    | .pubTurn _ _ => true
    | _ => false

/-- The obstacle region of an RRT* request event, if the event is one. -/
def obsRegionOf : Event → Option Region
  | .reqRRTS _ o _ _ => some o
  | _ => none

/-- Responses the four pipeline services would give during one activation;
`none` models a failed call. -/
structure Responses where
  gest : Option Pose2D
  pert : Option Landscape
  mont : Option Pose2D
  rrts : Option (List Vec3)

/-- Result of one "look" activation: either the process terminates with
exit status 1 (`fatal`, a service call failed), or the activation runs to
completion with a final `state` value, emitting the listed events. -/
inductive ActResult where
  | fatal : List Event → ActResult
  | ok : ℕ → List Event → ActResult
deriving DecidableEq

/-- The final pipeline state, when the activation did not kill the process. -/
def ActResult.finalState : ActResult → Option ℕ
  | .fatal _ => none
  | .ok s _ => some s

/-- The events emitted during the activation. -/
def ActResult.events : ActResult → List Event
  | .fatal evs => evs
  | .ok _ evs => evs

/-- One "look" activation (command_logic.cpp:259-432).  `state` is set to 0
on entry; each stage block is gated on the state value left by the previous
one; a failed call returns 1 from `main` (here: `fatal`); the path is
published on RRT* success and the turn command is emitted at state 4.
The gesture pose is sent to the gesture-processing service and the robot
pose is read for the RRT* initial position and the turn command. -/
def lookActivation (obsReg : Region) (gesture : GPose) (robot : Pose2D)
    (r : Responses) : ActResult :=
  match r.gest with
  | none => .fatal []
  | some target =>
    let s1 := gestureStage target
    if s1 = 1 then
      match r.pert with
      | none => .fatal []
      | some land =>
        let s2 := pertinenceStage s1 land
        if s2 = 2 then
          match r.mont with
          | none => .fatal []
          | some goal =>
            let s3 := monteCarloStage s2 goal
            if s3 = 3 then
              match r.rrts with
              | none =>
                .fatal [.reqRRTS workspaceRegion obsReg (goalRegion goal)
                  (initVector robot)]
              | some pts =>
                .ok (rrtsStage s3)
                  [.reqRRTS workspaceRegion obsReg (goalRegion goal)
                    (initVector robot),
                   .pubPath pts, .pubTurn goal robot]
            else .ok s3 []
        else .ok s2 []
    else .ok s1 []

/-- The mutable program state carried across loop iterations: the stored
command tag and poses (globals, zero-initialised), the enable flag
(initialised false, command_logic.cpp:130) and the persistent `state`
local of `main` (command_logic.cpp:128). -/
structure Store where
  cmd : ℕ
  robot : Pose2D
  obs : Pose2D
  gesture : GPose
  enable : Bool
  state : ℕ

/-- Input of one loop iteration: the service responses for a possible
activation, and the subscriber deliveries drained by the end-of-iteration
`ros::spinOnce()` (last-write-wins: only the latest delivery per topic
matters, modelled as an `Option`). -/
structure TickInput where
  resp : Responses
  dRobot : Option Pose2D
  dObs : Option Pose2D
  dGesture : Option GPose
  dCmd : Option ℕ

/-- `ros::spinOnce()` (command_logic.cpp:458): run the subscriber callbacks
on the drained deliveries, updating the stores in place. -/
def drain (st : Store) (t : TickInput) : Store :=
  { st with
    cmd := match t.dCmd with
      | some m => getCmd m
      | none => st.cmd
    robot := match t.dRobot with
      | some m => getRobotPose m
      | none => st.robot
    obs := match t.dObs with
      | some m => getObstaclePose m
      | none => st.obs
    gesture := match t.dGesture with
      | some m => getGesture m
      | none => st.gesture }

/-- Result of one loop iteration: `fatal` when an activation killed the
process (exit status 1), otherwise the updated store and emitted events. -/
inductive TickResult where
  | fatal : List Event → TickResult
  | ok : Store → List Event → TickResult

/-- The events emitted during one loop iteration. -/
def TickResult.events : TickResult → List Event
  | .fatal evs => evs
  | .ok _ evs => evs

/-- One iteration of the main loop (command_logic.cpp:256-460): act on the
current command tag (1 = look, 2 = go, 3 = stop, anything else ignored),
then drain deliveries via `spinOnce`.  Each recognised branch clears the
command tag, so the subsequent `if` tests of the same iteration do not fire
and a steady tag does not re-trigger. -/
def tickStep (obsReg : Region) (st : Store) (t : TickInput) : TickResult :=
  if st.cmd = 1 then
    match lookActivation obsReg st.gesture st.robot t.resp with
    | .fatal evs => .fatal evs
    | .ok s evs => .ok (drain { st with cmd := 0, state := s } t) evs
  else if st.cmd = 2 then
    .ok (drain { st with enable := true, cmd := 0 } t) [.pubFlag true]
  else if st.cmd = 3 then
    .ok (drain { st with enable := false, cmd := 0 } t) [.pubFlag false]
  else
    .ok (drain st t) []

/-- The main loop over a finite schedule of iterations: returns the process
exit status and the trace of events.  Exhausting the schedule models
`ros::ok()` turning false (normal shutdown, `return 0`,
command_logic.cpp:463); a fatal iteration stops the loop immediately with
status 1 and no further events. -/
def runLoop (obsReg : Region) : Store → List TickInput → ℕ × List Event
  | _, [] => (0, [])
  | st, t :: ts =>
    match tickStep obsReg st t with
    | .fatal evs => (1, evs)
    | .ok st' evs =>
      let r := runLoop obsReg st' ts
      (r.1, evs ++ r.2)

/-- The store at entry of the main loop: globals are zero-initialised,
`enable.data = false`, `state = 0`, and no subscriber callback can have run
yet (the first `ros::spinOnce()` is inside the loop). -/
def initStore : Store :=
  { cmd := 0
    robot := ⟨.fin 0, .fin 0, .fin 0⟩
    obs := ⟨.fin 0, .fin 0, .fin 0⟩
    gesture := ⟨⟨.fin 0, .fin 0, .fin 0⟩, ⟨.fin 0, .fin 0, .fin 0, .fin 0⟩⟩
    enable := false
    state := 0 }

/-- The whole process (command_logic.cpp:115-464): the startup
spatial-reasoner call (`none` = failure, `return 1`,
command_logic.cpp:249-253); on success the obstacle region is built from
the obstacle pose known before the loop — necessarily the zero-initialised
one, since the first `ros::spinOnce()` only happens inside the loop — and
the main loop runs.  The cached matrices are forwarded to the pertinence
request unchanged and have no further observable effect. -/
def runProcess (spat : Option SpatResp) (ticks : List TickInput) :
    ℕ × List Event :=
  match spat with
  | none => (1, [])
  | some _ => runLoop (buildObstacleRegion initStore.obs) initStore ticks

/-- Modelled from the spec: "a target or goal is valid iff both coordinates
are finite (not NaN/∞) and lie within [-HSIZE/2, HSIZE/2] x
[-VSIZE/2, VSIZE/2]" (inclusive bounds). -/
def validPoseSpec (p : Pose2D) : Bool :=
  p.x.isfinite && p.y.isfinite &&
  (FP.fin ((-HSIZE / 2 : ℤ) : ℚ)).le p.x &&
  p.x.le (.fin ((HSIZE / 2 : ℤ) : ℚ)) &&
  (FP.fin ((-VSIZE / 2 : ℤ) : ℚ)).le p.y &&
  p.y.le (.fin ((VSIZE / 2 : ℤ) : ℚ))

/-- A landscape every cell of which is NaN. -/
def nanLand : Landscape := fun _ => FP.nan

/-- A pose whose x coordinate is NaN (used as an invalid target or goal). -/
def nanGoal : Pose2D := ⟨FP.nan, FP.fin 0, FP.fin 0⟩

/-- The obstacle region the process actually uses: centered at the
zero-initialised obstacle pose, with the predefined 80 x 80 footprint. -/
def startupObsRegion : Region :=
  ⟨.fin 0, .fin 0, .fin 0, .fin 80, .fin 80, .fin 0⟩

/-- A loop-iteration input whose gesture-processing call succeeds with an
invalid (NaN) target and which carries no deliveries. -/
def lookNanTick : TickInput :=
  ⟨⟨some nanGoal, none, none, none⟩, none, none, none, none⟩

/-- The all-zero pose: a valid target and a valid goal. -/
def zeroPose : Pose2D := ⟨.fin 0, .fin 0, .fin 0⟩

/-- A landscape all of whose cells are 0 (finite). -/
def zeroLand : Landscape := fun _ => FP.fin 0

/-- A loop-iteration input whose gesture-processing call fails; no
deliveries. -/
def lookFailTick : TickInput :=
  ⟨⟨none, none, none, none⟩, none, none, none, none⟩

/-- A loop-iteration input with no service responses and a single delivered
command tag 3 ("stop"). -/
def stopCmdTick : TickInput :=
  ⟨⟨none, none, none, none⟩, none, none, none, some 3⟩

noncomputable section

/-- C `atan2(y, x)`, with range (-pi, pi]: the argument of the complex
number x + y i. -/
def atan2 (y x : ℝ) : ℝ := Complex.arg ⟨x, y⟩

/-- Modelled from the spec: "normalize maps any angle to the range
(-pi, pi] via atan2(sin(a), cos(a))". -/
def normalizeAngle (a : ℝ) : ℝ := atan2 (Real.sin a) (Real.cos a)

/-- The heading correction computed when state 4 is reached
(command_logic.cpp:424-426): `dtheta = atan2(goal.y - robot.y,
goal.x - robot.x) - robot.theta` followed by
`dtheta = atan2(sin(dtheta), cos(dtheta))`.  The `pubTurn` event records
the goal and robot poses this is computed from. -/
def headingDelta (gx gy rx ry rth : ℝ) : ℝ :=
  atan2 (Real.sin (atan2 (gy - ry) (gx - rx) - rth))
    (Real.cos (atan2 (gy - ry) (gx - rx) - rth))

end

/-! ## Helper lemmas -/

lemma gestureStage_cases (t : Pose2D) : gestureStage t = 0 ∨ gestureStage t = 1 := by
  unfold gestureStage
  by_cases h : poseOutOfBounds t = true <;>
    by_cases h2 : (t.x.isfinite && t.y.isfinite) = true <;>
      simp [h, h2]

lemma poseOutOfBounds_fin (a b : ℚ) (th : FP) :
    poseOutOfBounds ⟨.fin a, .fin b, th⟩ = false ↔
      validPoseSpec ⟨.fin a, .fin b, th⟩ = true := by
  simp only [poseOutOfBounds, validPoseSpec, FP.lt, FP.le, FP.isfinite,
    Bool.or_eq_false_iff, decide_eq_false_iff_not, Bool.and_eq_true,
    decide_eq_true_eq, not_lt]
  tauto

lemma gestureStage_eq_one_iff (t : Pose2D) :
    gestureStage t = 1 ↔ validPoseSpec t = true := by
  rcases t with ⟨x, y, th⟩
  rcases x with _ | _ | _ | a <;> rcases y with _ | _ | _ | b
  case fin.fin =>
    have hb := poseOutOfBounds_fin a b th
    unfold gestureStage
    by_cases h : poseOutOfBounds ⟨.fin a, .fin b, th⟩ = true
    · simp only [h, if_true, FP.isfinite]
      constructor
      · intro h0; cases h0
      · intro hv
        rw [← hb] at hv
        rw [hv] at h
        cases h
    · have hf : poseOutOfBounds ⟨.fin a, .fin b, th⟩ = false :=
        Bool.eq_false_iff.mpr h
      rw [← hb]
      simp [hf, FP.isfinite]
  all_goals
    simp [gestureStage, validPoseSpec, FP.isfinite]

lemma monteCarloStage_advance_iff (g : Pose2D) :
    monteCarloStage 2 g = 3 ↔ poseOutOfBounds g = false := by
  unfold monteCarloStage
  by_cases h : poseOutOfBounds g = true <;> simp [h]

/-! ## C6: ingestion scaling -/

/-- C6: every pose delivered to an ingestion callback is stored with each
position coordinate multiplied by exactly 100, while theta (robot and
obstacle poses) and the orientation (gesture pose) are stored unchanged. -/
theorem c6_ingestion_scaling (qx qy qz qth : ℚ) (p : Pose2D) (g : GPose) :
    getRobotPose ⟨.fin qx, .fin qy, .fin qth⟩
        = ⟨.fin (100 * qx), .fin (100 * qy), .fin qth⟩ ∧
    getObstaclePose ⟨.fin qx, .fin qy, .fin qth⟩
        = ⟨.fin (100 * qx), .fin (100 * qy), .fin qth⟩ ∧
    (∀ q4 : QuatMsg, getGesture ⟨⟨.fin qx, .fin qy, .fin qz⟩, q4⟩
        = ⟨⟨.fin (100 * qx), .fin (100 * qy), .fin (100 * qz)⟩, q4⟩) ∧
    (getRobotPose p).theta = p.theta ∧
    (getObstaclePose p).theta = p.theta ∧
    (getGesture g).orientation = g.orientation :=
  ⟨rfl, rfl, fun _ => rfl, rfl, rfl, rfl⟩

/-! ## C7: pertinence landscape gate -/

/-- C7: the fused landscape is accepted (TargetValid -> LandscapeValid) iff
its first scalar is finite; a non-finite first scalar resets the state to
Idle; and the gate inspects no other cell of the grid (two landscapes that
agree on cell 0 are treated identically). -/
theorem c7_landscape_gate (s : ℕ) (land : Landscape) :
    (pertinenceStage 1 land = 2 ↔ (land 0).isfinite = true) ∧
    ((land 0).isfinite = false → pertinenceStage 1 land = 0) ∧
    (∀ land2 : Landscape, land2 0 = land 0 →
      pertinenceStage s land2 = pertinenceStage s land) := by
  refine ⟨?_, ?_, ?_⟩
  · unfold pertinenceStage
    by_cases h : (land 0).isfinite = true <;> simp [h]
  · intro h
    unfold pertinenceStage
    simp [h]
  · intro land2 h
    unfold pertinenceStage
    rw [h]

/-- Witness for C7, at the all-NaN landscape (non-finite first scalar)
and at an agreeing pair of landscapes. -/
theorem c7_landscape_gate_witness :
    pertinenceStage 1 nanLand = 0 ∧
      pertinenceStage 5 nanLand = pertinenceStage 5 nanLand :=
  ⟨(c7_landscape_gate 5 nanLand).2.1 rfl,
    (c7_landscape_gate 5 nanLand).2.2 nanLand rfl⟩

/-! ## C2: target gate -/

/-- C2: on a successful gesture-processing call, the state machine advances
Idle -> TargetValid iff both target coordinates are finite and lie within
the inclusive bounds [-HSIZE/2, HSIZE/2] x [-VSIZE/2, VSIZE/2]; the
boundary itself is accepted; otherwise the state remains Idle and the
activation aborts with no events. -/
theorem c2_target_gate (t : Pose2D) :
    (gestureStage t = 1 ↔ validPoseSpec t = true) ∧
    (gestureStage t = 0 ∨ gestureStage t = 1) ∧
    gestureStage ⟨.fin ((HSIZE / 2 : ℤ) : ℚ), .fin ((-VSIZE / 2 : ℤ) : ℚ),
      .fin 0⟩ = 1 ∧
    (∀ (obsReg : Region) (gst : GPose) (rb : Pose2D) (r : Responses),
      r.gest = some t → validPoseSpec t = false →
      lookActivation obsReg gst rb r = ActResult.ok 0 []) := by
  have hiff := gestureStage_eq_one_iff t
  have hcases := gestureStage_cases t
  refine ⟨hiff, hcases, by decide, ?_⟩
  intro obsReg gst rb r hg hv
  have h0 : gestureStage t = 0 := by
    rcases hcases with h | h
    · exact h
    · rw [hiff, hv] at h
      cases h
  rcases r with ⟨gr, pr, mr, rr⟩
  cases hg
  unfold lookActivation
  simp [h0]

/-- Witness for C2: a target with a NaN coordinate aborts the activation at
Idle with no events. -/
theorem c2_target_gate_witness :
    lookActivation workspaceRegion initStore.gesture initStore.robot
      ⟨some ⟨FP.nan, FP.fin 0, FP.fin 0⟩, none, none, none⟩
      = ActResult.ok 0 [] :=
  (c2_target_gate ⟨FP.nan, FP.fin 0, FP.fin 0⟩).2.2.2 workspaceRegion
    initStore.gesture initStore.robot
    ⟨some ⟨FP.nan, FP.fin 0, FP.fin 0⟩, none, none, none⟩ rfl rfl

/-! ## C1: goal gate -/

/-- C1 counterexample: at the concrete goal (NaN, 0) the Monte Carlo stage
advances LandscapeValid -> GoalValid (state 3) even though the goal is not
valid in the spec's sense (its x coordinate is not finite) — the code
performs no finiteness check on the goal, and every IEEE comparison against
NaN is false, so the bounds test does not fire. -/
theorem c1_counterexample :
    monteCarloStage 2 nanGoal = 3 ∧ validPoseSpec nanGoal = false ∧
      nanGoal.x.isfinite = false := by decide

/-- C1 (amended): the Monte Carlo stage advances LandscapeValid -> GoalValid
iff no bound comparison fires, i.e. iff
not (x < -HSIZE/2 or x > HSIZE/2 or y < -VSIZE/2 or y > VSIZE/2) under IEEE
semantics; a goal failing the test resets the state to Idle; an infinite
coordinate is rejected; but a NaN coordinate passes, and only for goals
with no NaN coordinate is the gate equivalent to the spec's validity
(finite and within the inclusive bounds). -/
theorem c1_goal_gate (g : Pose2D) :
    (monteCarloStage 2 g = 3 ↔ poseOutOfBounds g = false) ∧
    (poseOutOfBounds g = true → monteCarloStage 2 g = 0) ∧
    ((g.x = FP.inf ∨ g.x = FP.ninf ∨ g.y = FP.inf ∨ g.y = FP.ninf) →
      monteCarloStage 2 g = 0) ∧
    (g.x ≠ FP.nan → g.y ≠ FP.nan →
      (monteCarloStage 2 g = 3 ↔ validPoseSpec g = true)) := by
  have hadv := monteCarloStage_advance_iff g
  have hout : poseOutOfBounds g = true → monteCarloStage 2 g = 0 := by
    intro h
    unfold monteCarloStage
    simp [h]
  refine ⟨hadv, hout, ?_, ?_⟩
  · intro h
    apply hout
    rcases g with ⟨x, y, th⟩
    rcases h with h | h | h | h <;> cases h <;>
      simp [poseOutOfBounds, FP.lt]
  · intro hx hy
    rw [hadv]
    rcases g with ⟨x, y, th⟩
    rcases x with _ | _ | _ | a <;> rcases y with _ | _ | _ | b <;>
      first
        | exact absurd rfl hx
        | exact absurd rfl hy
        | exact poseOutOfBounds_fin a b th
        | simp [poseOutOfBounds, validPoseSpec, FP.lt, FP.isfinite]

/-- Witness for C1 (amended): concrete out-of-bounds goal (300, 0) resets
the state to Idle, concrete infinite goal is rejected, and at a NaN-free
goal the gate agrees with the spec validity. -/
theorem c1_goal_gate_witness :
    monteCarloStage 2 ⟨FP.fin 300, FP.fin 0, FP.fin 0⟩ = 0 ∧
    monteCarloStage 2 ⟨FP.inf, FP.fin 0, FP.fin 0⟩ = 0 ∧
    (monteCarloStage 2 ⟨FP.fin 300, FP.fin 0, FP.fin 0⟩ = 3 ↔
      validPoseSpec ⟨FP.fin 300, FP.fin 0, FP.fin 0⟩ = true) :=
  ⟨(c1_goal_gate ⟨FP.fin 300, FP.fin 0, FP.fin 0⟩).2.1 (by decide),
    (c1_goal_gate ⟨FP.inf, FP.fin 0, FP.fin 0⟩).2.2.1 (Or.inl rfl),
    (c1_goal_gate ⟨FP.fin 300, FP.fin 0, FP.fin 0⟩).2.2.2
      (by decide) (by decide)⟩

/-! ## Shape of an activation -/

lemma pertinenceStage_one_cases (land : Landscape) :
    pertinenceStage 1 land = 0 ∨ pertinenceStage 1 land = 2 := by
  unfold pertinenceStage
  by_cases h : (land 0).isfinite = true <;> simp [h]

lemma monteCarloStage_two_cases (g : Pose2D) :
    monteCarloStage 2 g = 0 ∨ monteCarloStage 2 g = 3 := by
  unfold monteCarloStage
  by_cases h : poseOutOfBounds g = true <;> simp [h]

/-- Every activation ends in one of four shapes: an immediate fatal exit
with no events, a fatal exit after issuing the RRT* request, a recoverable
abort at state 0 with no events, or full success at state 4 with the RRT*
request followed by the path and turn publishes. -/
lemma lookActivation_shape (obsReg : Region) (gst : GPose) (rb : Pose2D)
    (r : Responses) :
    lookActivation obsReg gst rb r = ActResult.fatal [] ∨
    (∃ goal, lookActivation obsReg gst rb r = ActResult.fatal
      [.reqRRTS workspaceRegion obsReg (goalRegion goal) (initVector rb)]) ∨
    lookActivation obsReg gst rb r = ActResult.ok 0 [] ∨
    (∃ goal pts, lookActivation obsReg gst rb r = ActResult.ok 4
      [.reqRRTS workspaceRegion obsReg (goalRegion goal) (initVector rb),
        .pubPath pts, .pubTurn goal rb]) := by
  rcases r with ⟨gr, pr, mr, rr⟩
  rcases gr with _ | t
  · exact Or.inl rfl
  · obtain h1 | h1 := gestureStage_cases t
    · refine Or.inr (Or.inr (Or.inl ?_))
      unfold lookActivation
      simp [h1]
    · rcases pr with _ | land
      · refine Or.inl ?_
        unfold lookActivation
        simp [h1]
      · obtain h2 | h2 := pertinenceStage_one_cases land
        · refine Or.inr (Or.inr (Or.inl ?_))
          unfold lookActivation
          simp [h1, h2]
        · rcases mr with _ | goal
          · refine Or.inl ?_
            unfold lookActivation
            simp [h1, h2]
          · obtain h3 | h3 := monteCarloStage_two_cases goal
            · refine Or.inr (Or.inr (Or.inl ?_))
              unfold lookActivation
              simp [h1, h2, h3]
            · rcases rr with _ | pts
              · refine Or.inr (Or.inl ⟨goal, ?_⟩)
                unfold lookActivation
                simp [h1, h2, h3]
              · refine Or.inr (Or.inr (Or.inr ⟨goal, pts, ?_⟩))
                unfold lookActivation
                simp [h1, h2, h3, rrtsStage]

/-! ## C3: no stage skipping -/

lemma lookActivation_finalState (t : Pose2D) (land : Landscape) (g : Pose2D)
    (pts : List Vec3) (obsReg : Region) (gst : GPose) (rb : Pose2D) :
    (lookActivation obsReg gst rb ⟨some t, some land, some g, some pts⟩).finalState
      = some (rrtsStage (monteCarloStage (pertinenceStage (gestureStage t) land) g)) := by
  obtain h1 | h1 := gestureStage_cases t
  · unfold lookActivation
    simp [h1, pertinenceStage, monteCarloStage, rrtsStage, ActResult.finalState]
  · obtain h2 | h2 := pertinenceStage_one_cases land
    · unfold lookActivation
      simp [h1, h2, monteCarloStage, rrtsStage, ActResult.finalState]
    · obtain h3 | h3 := monteCarloStage_two_cases g
      · unfold lookActivation
        simp [h1, h2, h3, rrtsStage, ActResult.finalState]
      · unfold lookActivation
        simp [h1, h2, h3, ActResult.finalState]

/-- C3: within a "look" activation the pipeline state advances exactly one
stage at a time on a positive validity check and otherwise resets to Idle;
each stage value other than Idle can only follow a successful previous
stage, so PathPublished (4) is reached only through TargetValid (1),
LandscapeValid (2) and GoalValid (3) in that order; and the final state of
a fully serviced activation is exactly the composition of the four stage
gates applied in pipeline order. -/
theorem c3_no_stage_skipping (t : Pose2D) (land : Landscape) (g : Pose2D)
    (pts : List Vec3) :
    (gestureStage t = 0 ∨ gestureStage t = 1) ∧
    (pertinenceStage (gestureStage t) land = 0 ∨
      (gestureStage t = 1 ∧ pertinenceStage (gestureStage t) land = 2)) ∧
    (monteCarloStage (pertinenceStage (gestureStage t) land) g = 0 ∨
      (pertinenceStage (gestureStage t) land = 2 ∧
        monteCarloStage (pertinenceStage (gestureStage t) land) g = 3)) ∧
    (rrtsStage (monteCarloStage (pertinenceStage (gestureStage t) land) g) = 0 ∨
      (monteCarloStage (pertinenceStage (gestureStage t) land) g = 3 ∧
        rrtsStage (monteCarloStage (pertinenceStage (gestureStage t) land) g) = 4)) ∧
    (rrtsStage (monteCarloStage (pertinenceStage (gestureStage t) land) g) = 4 →
      gestureStage t = 1 ∧ pertinenceStage (gestureStage t) land = 2 ∧
        monteCarloStage (pertinenceStage (gestureStage t) land) g = 3) ∧
    (∀ (obsReg : Region) (gst : GPose) (rb : Pose2D),
      (lookActivation obsReg gst rb ⟨some t, some land, some g, some pts⟩).finalState
        = some (rrtsStage (monteCarloStage (pertinenceStage (gestureStage t) land) g))) := by
  have h1 := gestureStage_cases t
  have c2 : pertinenceStage (gestureStage t) land = 0 ∨
      (gestureStage t = 1 ∧ pertinenceStage (gestureStage t) land = 2) := by
    obtain h | h := h1
    · rw [h]
      left
      simp [pertinenceStage]
    · rw [h]
      obtain h2 | h2 := pertinenceStage_one_cases land
      · exact Or.inl h2
      · exact Or.inr ⟨rfl, h2⟩
  have c3 : monteCarloStage (pertinenceStage (gestureStage t) land) g = 0 ∨
      (pertinenceStage (gestureStage t) land = 2 ∧
        monteCarloStage (pertinenceStage (gestureStage t) land) g = 3) := by
    obtain hp | hp := c2
    · rw [hp]
      left
      simp [monteCarloStage]
    · rw [hp.2]
      obtain h3 | h3 := monteCarloStage_two_cases g
      · exact Or.inl h3
      · exact Or.inr ⟨rfl, h3⟩
  have c4 : rrtsStage (monteCarloStage (pertinenceStage (gestureStage t) land) g) = 0 ∨
      (monteCarloStage (pertinenceStage (gestureStage t) land) g = 3 ∧
        rrtsStage (monteCarloStage (pertinenceStage (gestureStage t) land) g) = 4) := by
    obtain hm | hm := c3
    · rw [hm]
      left
      simp [rrtsStage]
    · rw [hm.2]
      exact Or.inr ⟨rfl, by simp [rrtsStage]⟩
  have c5 : rrtsStage (monteCarloStage (pertinenceStage (gestureStage t) land) g) = 4 →
      gestureStage t = 1 ∧ pertinenceStage (gestureStage t) land = 2 ∧
        monteCarloStage (pertinenceStage (gestureStage t) land) g = 3 := by
    intro h4
    obtain hm | hm := c3
    · rw [hm] at h4
      exact absurd h4 (by simp [rrtsStage])
    · obtain hg | hg := c2
      · rw [hg] at hm
        exact absurd hm.1 (by decide)
      · exact ⟨hg.1, hm.1, hm.2⟩
  exact ⟨h1, c2, c3, c4, c5,
    fun obsReg gst rb => lookActivation_finalState t land g pts obsReg gst rb⟩

/-- Witness for C3: a fully valid activation input reaches state 4, and the
theorem then certifies that states 1, 2 and 3 were passed in order. -/
theorem c3_no_stage_skipping_witness :
    gestureStage zeroPose = 1 ∧ pertinenceStage (gestureStage zeroPose) zeroLand = 2 ∧
      monteCarloStage (pertinenceStage (gestureStage zeroPose) zeroLand) zeroPose = 3 :=
  (c3_no_stage_skipping zeroPose zeroLand zeroPose []).2.2.2.2.1 (by decide)

/-! ## C5: reset and fresh activation -/

lemma lookActivation_ok_state (obsReg : Region) (gst : GPose) (rb : Pose2D)
    (r : Responses) (s : ℕ) (evs : List Event) :
    lookActivation obsReg gst rb r = ActResult.ok s evs → s = 0 ∨ s = 4 := by
  intro h
  obtain hs | ⟨goal, hs⟩ | hs | ⟨goal, pts, hs⟩ := lookActivation_shape obsReg gst rb r <;>
    rw [hs] at h
  · exact ActResult.noConfusion h
  · exact ActResult.noConfusion h
  · injection h with h1 h2
    exact Or.inl h1.symm
  · injection h with h1 h2
    exact Or.inr h1.symm

/-- C5: an activation that does not kill the process ends either fully
successful (state 4) or reset to Idle (state 0); with no concurrent
command delivery the command tag is cleared to 0 at the end of the
iteration that ran the activation; and the activation's outcome is
independent of the pipeline-state value left behind by earlier activations
(state is set to 0 at the start of every activation), so no partial
pipeline state carries over. -/
lemma tickStep_of_cmd_one (obsReg : Region) (st : Store) (t : TickInput)
    (h : st.cmd = 1) :
    tickStep obsReg st t =
      match lookActivation obsReg st.gesture st.robot t.resp with
      | .fatal evs => .fatal evs
      | .ok s evs => .ok (drain { st with cmd := 0, state := s } t) evs := by
  unfold tickStep
  rw [h]
  rfl

theorem c5_reset_policy (obsReg : Region) (st : Store) (t : TickInput) :
    (∀ (gst : GPose) (rb : Pose2D) (r : Responses) (s : ℕ) (evs : List Event),
      lookActivation obsReg gst rb r = ActResult.ok s evs → s = 0 ∨ s = 4) ∧
    (st.cmd = 1 → t.dCmd = none → ∀ (st2 : Store) (evs : List Event),
      tickStep obsReg st t = TickResult.ok st2 evs → st2.cmd = 0) ∧
    (st.cmd = 1 → ∀ s0 : ℕ,
      tickStep obsReg { st with state := s0 } t = tickStep obsReg st t) := by
  refine ⟨fun gst rb r s evs h => lookActivation_ok_state obsReg gst rb r s evs h,
    ?_, ?_⟩
  · intro hcmd hdc st2 evs h
    rw [tickStep_of_cmd_one obsReg st t hcmd] at h
    rcases hl : lookActivation obsReg st.gesture st.robot t.resp with evs1 | ⟨s1, evs1⟩ <;>
      rw [hl] at h
    · exact TickResult.noConfusion h
    · injection h with h1 h2
      rw [← h1]
      simp [drain, hdc]
  · intro hcmd s0
    rcases st with ⟨c, rb, ob, gs, en, ss⟩
    have hc : c = 1 := hcmd
    subst hc
    rfl

/-- Witness for C5: the invalid-target activation ends at state 0, the
command tag is cleared, and running it from a store with stale pipeline
state 7 is identical to running it from the fresh store. -/
theorem c5_reset_policy_witness :
    (0 = 0 ∨ 0 = 4) ∧
    (drain initStore lookNanTick).cmd = 0 ∧
    tickStep startupObsRegion { initStore with cmd := 1, state := 7 } lookNanTick
      = tickStep startupObsRegion { initStore with cmd := 1 } lookNanTick :=
  ⟨(c5_reset_policy startupObsRegion { initStore with cmd := 1 } lookNanTick).1
      initStore.gesture initStore.robot lookNanTick.resp 0 [] rfl,
    (c5_reset_policy startupObsRegion { initStore with cmd := 1 } lookNanTick).2.1
      rfl rfl (drain initStore lookNanTick) [] rfl,
    (c5_reset_policy startupObsRegion { initStore with cmd := 1 } lookNanTick).2.2
      rfl 7⟩

/-! ## C4: fatal error policy -/

/-- C4: a failed spatial-reasoner call at startup exits with status 1 and
publishes nothing; a failed service call inside an activation produces no
publish in that activation; a fatal iteration makes the whole run exit
with status 1 immediately (no later events); an exhausted loop (normal
shutdown) exits with status 0; and a non-fatal iteration contributes its
events and continues the loop. -/
theorem c4_fatal_policy :
    (∀ ticks : List TickInput, runProcess none ticks = (1, [])) ∧
    (∀ (obsReg : Region) (gst : GPose) (rb : Pose2D) (r : Responses)
        (evs : List Event),
      lookActivation obsReg gst rb r = ActResult.fatal evs → eventPubs evs = []) ∧
    (∀ (obsReg : Region) (st : Store) (t : TickInput) (ts : List TickInput)
        (evs : List Event),
      tickStep obsReg st t = TickResult.fatal evs →
        runLoop obsReg st (t :: ts) = (1, evs)) ∧
    (∀ (obsReg : Region) (st : Store), runLoop obsReg st [] = (0, [])) ∧
    (∀ (obsReg : Region) (st st2 : Store) (t : TickInput) (ts : List TickInput)
        (evs : List Event),
      tickStep obsReg st t = TickResult.ok st2 evs →
        runLoop obsReg st (t :: ts)
          = ((runLoop obsReg st2 ts).1, evs ++ (runLoop obsReg st2 ts).2)) := by
  refine ⟨fun ticks => rfl, ?_, ?_, fun obsReg st => rfl, ?_⟩
  · intro obsReg gst rb r evs h
    obtain hs | ⟨goal, hs⟩ | hs | ⟨goal, pts, hs⟩ := lookActivation_shape obsReg gst rb r <;>
      rw [hs] at h
    · injection h with h1
      rw [← h1]
      rfl
    · injection h with h1
      rw [← h1]
      rfl
    · exact ActResult.noConfusion h
    · exact ActResult.noConfusion h
  · intro obsReg st t ts evs h
    unfold runLoop
    rw [h]
  · intro obsReg st st2 t ts evs h
    conv_lhs => rw [runLoop]
    rw [h]

/-- Witness for C4: a failed gesture-processing call yields a fatal
iteration with no publishes, the loop exits with status 1 at once, and a
non-fatal iteration concatenates its (empty) events with the rest. -/
theorem c4_fatal_policy_witness :
    eventPubs [] = [] ∧
    runLoop startupObsRegion { initStore with cmd := 1 } [lookFailTick] = (1, []) ∧
    runLoop startupObsRegion initStore [lookFailTick]
      = ((runLoop startupObsRegion (drain initStore lookFailTick) []).1,
          [] ++ (runLoop startupObsRegion (drain initStore lookFailTick) []).2) :=
  ⟨c4_fatal_policy.2.1 startupObsRegion initStore.gesture initStore.robot
      ⟨none, none, none, none⟩ [] rfl,
    c4_fatal_policy.2.2.1 startupObsRegion { initStore with cmd := 1 }
      lookFailTick [] [] rfl,
    c4_fatal_policy.2.2.2.2 startupObsRegion initStore
      (drain initStore lookFailTick) lookFailTick [] [] rfl⟩

/-! ## C9: go and stop commands -/

/-- C9: command tag 2 ("go") sets the enable flag true and publishes it,
tag 3 ("stop") sets it false and publishes it, both clearing the command
tag to 0; a tag outside the recognised set produces no publish and no
state mutation; and "go" followed by a delivered "stop" produces exactly
the two enable-flag publishes true then false, with normal exit. -/
theorem c9_go_stop (obsReg : Region) (rb ob : Pose2D) (gs : GPose)
    (en : Bool) (ss c : ℕ) (t t2 : TickInput) :
    tickStep obsReg ⟨2, rb, ob, gs, en, ss⟩ t
        = TickResult.ok (drain ⟨0, rb, ob, gs, true, ss⟩ t)
            [Event.pubFlag true] ∧
    tickStep obsReg ⟨3, rb, ob, gs, en, ss⟩ t
        = TickResult.ok (drain ⟨0, rb, ob, gs, false, ss⟩ t)
            [Event.pubFlag false] ∧
    (c ≠ 1 → c ≠ 2 → c ≠ 3 →
      tickStep obsReg ⟨c, rb, ob, gs, en, ss⟩ t
        = TickResult.ok (drain ⟨c, rb, ob, gs, en, ss⟩ t) []) ∧
    (t.dCmd = some 3 → t2.dCmd = none →
      runLoop obsReg ⟨2, rb, ob, gs, en, ss⟩ [t, t2]
        = (0, [Event.pubFlag true, Event.pubFlag false])) := by
  refine ⟨rfl, rfl, ?_, ?_⟩
  · intro h1 h2 h3
    unfold tickStep
    rw [if_neg h1, if_neg h2, if_neg h3]
  · intro hd hd2
    rcases t with ⟨resp, dr, dob, dg, dc⟩
    have hdc : dc = some 3 := hd
    subst hdc
    rcases t2 with ⟨resp2, dr2, dob2, dg2, dc2⟩
    have hdc2 : dc2 = none := hd2
    subst hdc2
    simp [runLoop, tickStep, drain, getCmd]

/-- Witness for C9: the unknown tag 99 is ignored, and the concrete
go-then-stop schedule publishes exactly true then false. -/
theorem c9_go_stop_witness :
    tickStep startupObsRegion ⟨99, zeroPose, zeroPose, initStore.gesture, false, 0⟩
        lookFailTick
      = TickResult.ok
          (drain ⟨99, zeroPose, zeroPose, initStore.gesture, false, 0⟩ lookFailTick)
          [] ∧
    runLoop startupObsRegion ⟨2, zeroPose, zeroPose, initStore.gesture, false, 0⟩
        [stopCmdTick, lookFailTick]
      = (0, [Event.pubFlag true, Event.pubFlag false]) :=
  ⟨(c9_go_stop startupObsRegion zeroPose zeroPose initStore.gesture false 0 99
      lookFailTick lookFailTick).2.2.1 (by decide) (by decide) (by decide),
    (c9_go_stop startupObsRegion zeroPose zeroPose initStore.gesture false 0 99
      stopCmdTick lookFailTick).2.2.2 rfl rfl⟩

/-! ## C10: static obstacle region -/

lemma lookActivation_events_obsRegion (obsReg : Region) (gst : GPose)
    (rb : Pose2D) (r : Responses) :
    ((lookActivation obsReg gst rb r).events.all fun ev =>
      (obsRegionOf ev).all fun rg => decide (rg = obsReg)) = true := by
  obtain hs | ⟨goal, hs⟩ | hs | ⟨goal, pts, hs⟩ := lookActivation_shape obsReg gst rb r <;>
    rw [hs] <;> simp [ActResult.events, obsRegionOf, Option.all]

lemma tickStep_events_obsRegion (obsReg : Region) (st : Store) (t : TickInput) :
    ((tickStep obsReg st t).events.all fun ev =>
      (obsRegionOf ev).all fun rg => decide (rg = obsReg)) = true := by
  unfold tickStep
  by_cases h1 : st.cmd = 1
  · rw [if_pos h1]
    have h := lookActivation_events_obsRegion obsReg st.gesture st.robot t.resp
    rcases hl : lookActivation obsReg st.gesture st.robot t.resp with evs1 | ⟨s1, evs1⟩ <;>
      rw [hl] at h <;> simp only [ActResult.events] at h <;>
      simpa [TickResult.events] using h
  · rw [if_neg h1]
    by_cases h2 : st.cmd = 2
    · rw [if_pos h2]
      rfl
    · rw [if_neg h2]
      by_cases h3 : st.cmd = 3
      · rw [if_pos h3]
        rfl
      · rw [if_neg h3]
        rfl

lemma runLoop_events_obsRegion (obsReg : Region) (ts : List TickInput) :
    ∀ st : Store, ((runLoop obsReg st ts).2.all fun ev =>
      (obsRegionOf ev).all fun rg => decide (rg = obsReg)) = true := by
  induction ts with
  | nil => intro st; rfl
  | cons t ts ih =>
    intro st
    have h := tickStep_events_obsRegion obsReg st t
    conv_lhs => rw [runLoop]
    rcases hl : tickStep obsReg st t with evs1 | ⟨st2, evs1⟩ <;>
      rw [hl] at h <;> simp only [TickResult.events] at h
    · simpa using h
    · simpa [List.all_append, h] using ih st2

/-- C10: the obstacle region passed to the RRT* service is the one built
before the main loop from the zero-initialised obstacle pose (the first
`ros::spinOnce()`, hence the first possible obstacle-pose delivery, happens
only inside the loop): an 80 x 80 box centered at (0, 0).  Every RRT*
request issued during any run of the process carries exactly this region,
regardless of the obstacle-pose deliveries in any iteration — it is never
rebuilt. -/
theorem c10_static_obstacle_region (spat : SpatResp) (ticks : List TickInput) :
    buildObstacleRegion initStore.obs = startupObsRegion ∧
    ((runProcess (some spat) ticks).2.all fun ev =>
      (obsRegionOf ev).all fun rg => decide (rg = startupObsRegion)) = true :=
  ⟨rfl, runLoop_events_obsRegion startupObsRegion ticks initStore⟩

/-! ## C8: heading correction -/

lemma lookActivation_turn (obsReg : Region) (gst : GPose) (rb : Pose2D)
    (r : Responses) :
    (∀ (s : ℕ) (evs : List Event),
      lookActivation obsReg gst rb r = ActResult.ok s evs →
        (hasTurn evs = true ↔ s = 4)) ∧
    (∀ evs : List Event,
      lookActivation obsReg gst rb r = ActResult.fatal evs →
        hasTurn evs = false) := by
  obtain hs | ⟨goal, hs⟩ | hs | ⟨goal, pts, hs⟩ := lookActivation_shape obsReg gst rb r
  · refine ⟨fun s evs heq => ?_, fun evs heq => ?_⟩
    · rw [hs] at heq
      exact ActResult.noConfusion heq
    · rw [hs] at heq
      injection heq with he
      rw [← he]
      rfl
  · refine ⟨fun s evs heq => ?_, fun evs heq => ?_⟩
    · rw [hs] at heq
      exact ActResult.noConfusion heq
    · rw [hs] at heq
      injection heq with he
      rw [← he]
      rfl
  · refine ⟨fun s evs heq => ?_, fun evs heq => ?_⟩
    · rw [hs] at heq
      injection heq with h1 h2
      rw [← h1, ← h2]
      simp [hasTurn]
    · rw [hs] at heq
      exact ActResult.noConfusion heq
  · refine ⟨fun s evs heq => ?_, fun evs heq => ?_⟩
    · rw [hs] at heq
      injection heq with h1 h2
      rw [← h1, ← h2]
      simp [hasTurn]
    · rw [hs] at heq
      exact ActResult.noConfusion heq

/-- C8: the heading correction equals normalize(atan2(goal.y - robot.y,
goal.x - robot.x) - robot.theta) with normalize(a) = atan2(sin a, cos a);
it always lies in (-pi, pi]; it is 0 for goal (100, 0) and robot (0, 0, 0)
and pi/2 for goal (0, 100) and robot (0, 0, 0); and the turn command is
emitted during an activation iff the state machine reaches PathPublished
(state 4) in that same activation (never on a fatal exit). -/
theorem c8_heading (gx gy rx ry rth : ℝ) :
    headingDelta gx gy rx ry rth
        = normalizeAngle (atan2 (gy - ry) (gx - rx) - rth) ∧
    headingDelta gx gy rx ry rth ∈ Set.Ioc (-Real.pi) Real.pi ∧
    headingDelta 100 0 0 0 0 = 0 ∧
    headingDelta 0 100 0 0 0 = Real.pi / 2 ∧
    (∀ (obsReg : Region) (gst : GPose) (rb : Pose2D) (r : Responses)
        (s : ℕ) (evs : List Event),
      lookActivation obsReg gst rb r = ActResult.ok s evs →
        (hasTurn evs = true ↔ s = 4)) ∧
    (∀ (obsReg : Region) (gst : GPose) (rb : Pose2D) (r : Responses)
        (evs : List Event),
      lookActivation obsReg gst rb r = ActResult.fatal evs →
        hasTurn evs = false) := by
  have h0 : atan2 0 100 = 0 := by
    unfold atan2
    rw [show (⟨(100:ℝ), (0:ℝ)⟩ : ℂ) = ((100:ℝ) : ℂ) from by
      rw [Complex.mk_eq_add_mul_I]; simp]
    exact Complex.arg_ofReal_of_nonneg (by norm_num)
  have h1 : atan2 (Real.sin 0) (Real.cos 0) = 0 := by
    rw [Real.sin_zero, Real.cos_zero]
    unfold atan2
    rw [show (⟨(1:ℝ), (0:ℝ)⟩ : ℂ) = 1 from by
      rw [Complex.mk_eq_add_mul_I]; simp]
    exact Complex.arg_one
  have h2 : atan2 100 0 = Real.pi / 2 := by
    unfold atan2
    rw [show (⟨(0:ℝ), (100:ℝ)⟩ : ℂ) = ((100:ℝ) : ℂ) * Complex.I from by
      rw [Complex.mk_eq_add_mul_I]; simp]
    rw [Complex.arg_real_mul Complex.I (by norm_num : (0:ℝ) < 100)]
    exact Complex.arg_I
  have h3 : atan2 (Real.sin (Real.pi / 2)) (Real.cos (Real.pi / 2))
      = Real.pi / 2 := by
    rw [Real.sin_pi_div_two, Real.cos_pi_div_two]
    unfold atan2
    rw [show (⟨(0:ℝ), (1:ℝ)⟩ : ℂ) = Complex.I from by
      rw [Complex.mk_eq_add_mul_I]; simp]
    exact Complex.arg_I
  refine ⟨rfl, ?_, ?_, ?_,
    fun obsReg gst rb r s evs h => (lookActivation_turn obsReg gst rb r).1 s evs h,
    fun obsReg gst rb r evs h => (lookActivation_turn obsReg gst rb r).2 evs h⟩
  · unfold headingDelta atan2
    exact Complex.arg_mem_Ioc _
  · unfold headingDelta
    simp only [sub_zero, h0]
    exact h1
  · unfold headingDelta
    simp only [sub_zero, h2]
    exact h3

/-- Witness for C8: the fully successful activation emits the turn command
(state 4 reached), the failed-call activation emits none. -/
theorem c8_heading_witness :
    (hasTurn [Event.reqRRTS workspaceRegion startupObsRegion
        (goalRegion zeroPose) (initVector zeroPose),
      Event.pubPath [], Event.pubTurn zeroPose zeroPose] = true ↔ 4 = 4) ∧
    hasTurn [] = false :=
  ⟨(c8_heading 0 0 0 0 0).2.2.2.2.1 startupObsRegion initStore.gesture zeroPose
      ⟨some zeroPose, some zeroLand, some zeroPose, some []⟩ 4
      [Event.reqRRTS workspaceRegion startupObsRegion (goalRegion zeroPose)
          (initVector zeroPose),
        Event.pubPath [], Event.pubTurn zeroPose zeroPose] rfl,
    (c8_heading 0 0 0 0 0).2.2.2.2.2 startupObsRegion initStore.gesture zeroPose
      ⟨none, none, none, none⟩ [] rfl⟩
